import Mathlib

/-!
Verification of the SimpleChatbot2 backend against its natural-language
specification.

The Python sources are shallowly embedded as Lean definitions:

* `backend/services/audio_processor.py` — `MultiEngineSTT`, `MultiEngineTTS`
  (with the `_generate_silence` WAV fallback), and `VoiceProcessor`
  (`process_voice_input`, `_analyze_emotion`);
* `backend/services/huggingface_service.py` — `generate_response` with its
  template tables and `_add_context_to_response`;
* `backend/middleware/security.py` — `RateLimitMiddleware.dispatch`;
* `backend/middleware/validation.py` and `backend/main.py` — the websocket
  connection-ceiling admission path.

Conventions: byte strings are `List Nat` (each entry a byte value), Python
floats are `ℚ`, Python strings are `String`.  External effects (which
engine libraries imported successfully, what a network backend returned,
whether an unexpected exception was raised, the wall clock) are passed as
explicit parameters: `Option` results model a backend call that either
returned a value or raised, and a `Bool` flag models the `except` branch of
a `try` block.  Every definition is computable so concrete runs evaluate by
`decide` / `rfl`.
-/

namespace SimpleChatbot2

/-- Byte strings (`bytes` in Python) as lists of byte values. -/
abbrev Bytes := List Nat

/-! ## MultiEngineTTS (`audio_processor.py`)

`_generate_silence(duration)` writes a mono, 16-bit, 22050 Hz PCM WAV via
the `wave` module: a 44-byte RIFF header followed by
`int(22050 * duration)` zero frames of 2 bytes each.  The header is spelled
out byte by byte below (multi-byte fields little-endian); 22050 = [34, 86]
and the byte rate 44100 = [68, 172]. -/

/-- RIFF/WAVE header produced by the `wave` module for `dataLen` bytes of
mono 16-bit PCM at 22050 Hz, byte by byte. -/
def wavHeader (dataLen : Nat) : Bytes :=
  82 :: 73 :: 70 :: 70 ::
  ((36 + dataLen) % 256) :: ((36 + dataLen) / 256 % 256) ::
  ((36 + dataLen) / 2 ^ 16 % 256) :: ((36 + dataLen) / 2 ^ 24 % 256) ::
  87 :: 65 :: 86 :: 69 ::
  102 :: 109 :: 116 :: 32 ::
  16 :: 0 :: 0 :: 0 ::
  1 :: 0 ::
  1 :: 0 ::
  34 :: 86 :: 0 :: 0 ::
  68 :: 172 :: 0 :: 0 ::
  2 :: 0 ::
  16 :: 0 ::
  100 :: 97 :: 116 :: 97 ::
  (dataLen % 256) :: (dataLen / 256 % 256) ::
  (dataLen / 2 ^ 16 % 256) :: (dataLen / 2 ^ 24 % 256) :: []

/-- `int(sample_rate * duration)` with `sample_rate = 22050`. -/
def framesOfDuration (duration : ℚ) : Nat := (⌊(22050 : ℚ) * duration⌋).toNat

/-- `MultiEngineTTS._generate_silence(duration)`: a WAV file of
`int(22050 * duration)` zero-valued 16-bit mono frames. -/
def generateSilence (duration : ℚ) : Bytes :=
  wavHeader (2 * framesOfDuration duration) ++
    List.replicate (2 * framesOfDuration duration) 0

/-- Channel count stored in a WAV byte string (bytes 22-23, little-endian). -/
def wavChannels (b : Bytes) : Nat := b.getD 22 0 + 256 * b.getD 23 0

/-- Bits per sample stored in a WAV byte string (bytes 34-35). -/
def wavBitsPerSample (b : Bytes) : Nat := b.getD 34 0 + 256 * b.getD 35 0

/-- Sample rate stored in a WAV byte string (bytes 24-27, little-endian). -/
def wavSampleRate (b : Bytes) : Nat :=
  b.getD 24 0 + 256 * b.getD 25 0 + 2 ^ 16 * b.getD 26 0 + 2 ^ 24 * b.getD 27 0

/-- Which TTS backends were loaded by `load_tts_engines` (membership of
`'edge_tts'` resp. `'gtts'` in `self.engines`; when neither import
succeeded the dict holds only the `'mock'` entry). -/
structure TTSConfig where
  hasEdgeTTS : Bool
  hasGTTS : Bool

/-- `MultiEngineTTS._gtts_synthesize`: the gTTS attempt either returns
bytes (`some`) or raises (`none`), in which case the handler returns
`_generate_silence(2.0)`. -/
def gttsSynthesize (gttsOut : Option Bytes) : Bytes :=
  match gttsOut with
  | some b => b
  | none => generateSilence 2

/-- `MultiEngineTTS._edge_tts_synthesize`: the edge-tts attempt either
returns bytes or raises, in which case the handler falls back to
`_gtts_synthesize`. -/
def edgeTTSSynthesize (edgeOut gttsOut : Option Bytes) : Bytes :=
  match edgeOut with
  | some b => b
  | none => gttsSynthesize gttsOut

/-- `MultiEngineTTS.synthesize_with_best_engine`: prefer edge-tts, then
gTTS, else the mock path `_generate_silence(2.0)`.  The function is total:
the Python `except` arm (returning `_generate_silence(1.0)`) is
unreachable here because every inner call already handles its own
failure. -/
def synthesizeWithBestEngine (cfg : TTSConfig) (edgeOut gttsOut : Option Bytes) :
    Bytes :=
  if cfg.hasEdgeTTS then edgeTTSSynthesize edgeOut gttsOut
  else if cfg.hasGTTS then gttsSynthesize gttsOut
  else generateSilence 2

/-! ## MultiEngineSTT (`audio_processor.py`) -/

/-- Which STT backend was loaded by `load_stt_engines`: `'google'` when the
`speech_recognition` import succeeded, otherwise the `'mock'` entry. -/
structure STTConfig where
  hasGoogle : Bool

/-- Result dict of `transcribe_with_best_engine`. -/
structure SttResult where
  engine : String
  text : String
  confidence : ℚ
  processTime : ℚ
deriving DecidableEq

/-- The `mock_responses` list of `transcribe_with_best_engine`. -/
def mockResponses : List String :=
  ["سلام، چطور هستید؟",
   "امروز هوا چطور است؟",
   "لطفاً کمکم کنید",
   "ممنون از شما",
   "خداحافظ",
   "چه خبر؟",
   "حال شما چطور است؟",
   "می‌توانید کمکم کنید؟"]

/-- `MultiEngineSTT._google_stt_transcribe`: the recognizer either returns
text (`some`) with fixed confidence 0.9, or raises (`none`) and the
handler returns the fallback dict with confidence 0.0. -/
def googleSttTranscribe (googleOut : Option String) : SttResult :=
  match googleOut with
  | some t => ⟨"google", t, 0.9, 0.8⟩
  | none => ⟨"fallback", "نتوانستم صدا را تشخیص دهم", 0, 0⟩

/-- `MultiEngineSTT.transcribe_with_best_engine`: dispatch to Google when
loaded, else the mock branch picking `mock_responses[choiceIdx % 8]`
(`random.choice` modelled by an explicit index) with confidence 0.85. -/
def transcribeWithBestEngine (cfg : STTConfig) (googleOut : Option String)
    (choiceIdx : Nat) : SttResult :=
  if cfg.hasGoogle then googleSttTranscribe googleOut
  else ⟨"mock", mockResponses.getD (choiceIdx % mockResponses.length) "", 0.85, 0.5⟩

/-- The `performance_scores` table built by `load_stt_engines`: exactly one
entry, `google → 0.85` when `speech_recognition` imported, else
`mock → 0.85`. -/
def performanceScores (cfg : STTConfig) : List (String × ℚ) :=
  if cfg.hasGoogle then [("google", 0.85)] else [("mock", 0.85)]

/-- The engines actually invoked by one call of
`transcribe_with_best_engine`, branch by branch: the Google branch touches
only `'google'`, the mock branch only `'mock'`. -/
def sttInvokedEngines (cfg : STTConfig) : List String :=
  if cfg.hasGoogle then ["google"] else ["mock"]

/-- Engine table sorted by descending reliability score. -/
def sortByScoreDesc (l : List (String × ℚ)) : List (String × ℚ) :=
  List.insertionSort (fun a b => b.2 ≤ a.2) l

/-! ## VoiceProcessor (`audio_processor.py`) -/

/-- Python `needle in haystack` on strings: some suffix of the haystack
starts with the needle. -/
def occursIn (haystack needle : String) : Bool :=
  haystack.data.tails.any (fun s => needle.data.isPrefixOf s)

/-- Python `str.lower()` (character-wise; Persian letters are fixed
points in both languages). -/
def lowerStr (s : String) : String := ⟨s.data.map Char.toLower⟩

/-- `positive_words` of `_analyze_emotion`. -/
def positiveWords : List String :=
  ["خوب", "عالی", "خوشحال", "ممنون", "سپاس", "شاد", "راضی", "خوشبخت"]

/-- `negative_words` of `_analyze_emotion`. -/
def negativeWords : List String :=
  ["بد", "ناراحت", "غمگین", "متاسف", "خسته", "عصبانی", "نگران", "ترسیده"]

/-- `excited_words` of `_analyze_emotion`. -/
def excitedWords : List String :=
  ["فوق‌العاده", "بی‌نظیر", "شگفت‌انگیز", "رائع", "عجیب", "حیرت‌انگیز"]

/-- `VoiceProcessor._analyze_emotion`: ordered keyword-containment test on
the lower-cased text — excited, then happy, then sad, default neutral.
The body is exception-free, so the `except: return 'neutral'` arm is
unreachable. -/
def analyzeEmotion (text : String) : String :=
  if excitedWords.any (fun w => occursIn (lowerStr text) w) then "excited"
  else if positiveWords.any (fun w => occursIn (lowerStr text) w) then "happy"
  else if negativeWords.any (fun w => occursIn (lowerStr text) w) then "sad"
  else "neutral"

/-- The dict returned by `VoiceProcessor.process_voice_input`: either the
`success: False` shape carrying `message` and fallback `audio`
(`audioData` here), or the `success: True` shape. -/
inductive VoiceResult where
  | failure (message : String) (audioData : Bytes)
  | success (text : String) (emotion : String) (engineUsed : String)
      (confidence : ℚ) (processTime : ℚ)
deriving DecidableEq

/-- `VoiceProcessor.process_voice_input`.  `audioLen` is
`len(audio_data)` (the `not audio_data` test is subsumed by
`len < 1000`); `excRaised` models the top-level `except` branch taken when
an unexpected exception interrupts the pipeline; `elapsed` is the wall
clock difference `time.time() - start_time`.  Each failure branch carries
audio synthesized through `synthesize_with_best_engine`, whose one actual
invocation per run has outcome `edgeOut` / `gttsOut`. -/
def processVoiceInput (audioLen : Nat) (sttCfg : STTConfig)
    (googleOut : Option String) (sttChoiceIdx : Nat) (ttsCfg : TTSConfig)
    (edgeOut gttsOut : Option Bytes) (excRaised : Bool) (elapsed : ℚ) :
    VoiceResult :=
  if excRaised then
    .failure "خطا در پردازش صدا" (synthesizeWithBestEngine ttsCfg edgeOut gttsOut)
  else if audioLen < 1000 then
    .failure "فایل صوتی خیلی کوتاه است"
      (synthesizeWithBestEngine ttsCfg edgeOut gttsOut)
  else if (transcribeWithBestEngine sttCfg googleOut sttChoiceIdx).text = ""
      ∨ (transcribeWithBestEngine sttCfg googleOut sttChoiceIdx).confidence < 0.1 then
    .failure "نتوانستم صدای شما را تشخیص دهم"
      (synthesizeWithBestEngine ttsCfg edgeOut gttsOut)
  else
    .success (transcribeWithBestEngine sttCfg googleOut sttChoiceIdx).text
      (analyzeEmotion (transcribeWithBestEngine sttCfg googleOut sttChoiceIdx).text)
      (transcribeWithBestEngine sttCfg googleOut sttChoiceIdx).engine
      (transcribeWithBestEngine sttCfg googleOut sttChoiceIdx).confidence
      elapsed

/-- STT engines invoked during one run of `process_voice_input`: the
short-payload guard returns before `transcribe_with_best_engine` is ever
called. -/
def pviInvokedSttEngines (audioLen : Nat) (sttCfg : STTConfig) : List String :=
  if audioLen < 1000 then [] else sttInvokedEngines sttCfg

/-! ## HuggingFaceService (`huggingface_service.py`) -/

/-- `persian_responses["greeting"]`. -/
def greetingResponses : List String :=
  ["سلام! چطور می‌تونم کمکتون کنم؟",
   "درود! امیدوارم حالتون خوب باشه.",
   "سلام عزیز! چه خبر؟",
   "سلام و احترام! خوش آمدید.",
   "درود بر شما! چطور می‌تونم مفید باشم؟"]

/-- `persian_responses["question"]`. -/
def questionResponses : List String :=
  ["سوال جالبی پرسیدید! بذارید فکر کنم...",
   "این سوال خیلی مهمه. چی دوست دارید بدونید؟",
   "سوالتون رو متوجه شدم. کمی توضیح بدم:",
   "سوال خوبی بود! اینطور فکر می‌کنم:",
   "جالبه که این رو پرسیدید. نظر من اینه:"]

/-- `persian_responses["request_help"]`. -/
def requestHelpResponses : List String :=
  ["البته! خوشحال می‌شم کمکتون کنم.",
   "حتماً! بگید چطور می‌تونم مفید باشم.",
   "کمک کردن خوشحالم می‌کنه. چی نیاز دارید؟",
   "با کمال میل! چه کاری براتون انجام بدم؟",
   "آماده کمکم! بفرمایید چی می‌خواید."]

/-- `persian_responses["thanks"]`. -/
def thanksResponses : List String :=
  ["خواهش می‌کنم! خوشحالم که تونستم کمک کنم.",
   "قابل نداره! هر وقت نیاز داشتید بگید.",
   "ممنون از لطفتون!",
   "خیلی خوشحالم که مفید بودم!",
   "وظیفه‌م بود! موفق باشید."]

/-- `persian_responses["goodbye"]`. -/
def goodbyeResponses : List String :=
  ["خداحافظ! مراقب خودتون باشید.",
   "بای بای! امیدوارم روز خوبی داشته باشید.",
   "تا بعد! موفق باشید.",
   "خداحافظ عزیز! سلامت باشید.",
   "فعلاً! امیدوارم دوباره صحبت کنیم."]

/-- `persian_responses["weather_inquiry"]`. -/
def weatherInquiryResponses : List String :=
  ["متاسفانه اطلاعات هواشناسی آنلاین ندارم، ولی امیدوارم هوا براتون مناسب باشه!",
   "هوا چطوره بیرون؟ امیدوارم آفتابی و دلپذیر باشه.",
   "برای اطلاعات دقیق هوا بهتره از منابع معتبر استفاده کنید.",
   "امیدوارم هوا خوب باشه! من متاسفانه دسترسی به اطلاعات هواشناسی ندارم.",
   "هوا که خوب باشه همه چیز بهتر میشه! چطوره امروز؟"]

/-- `persian_responses["general_conversation"]`. -/
def generalConversationResponses : List String :=
  ["جالبه! بیشتر توضیح بدید.",
   "متوجه شدم. چیز دیگه‌ای هم هست؟",
   "خیلی جالب بود! ادامه بدید.",
   "این موضوع جذابه! نظرتون چیه؟",
   "باحال بود! چیز دیگه‌ای می‌خواید بگید؟"]

/-- `persian_responses["complaint"]`. -/
def complaintResponses : List String :=
  ["متوجه نارضایتی شما هستم. چطور می‌تونم کمک کنم؟",
   "ببخشید که این اتفاق افتاده. بگید چکار کنم.",
   "نارضایتی شما برام مهمه. راه حلی پیدا می‌کنیم.",
   "واقعاً متاسفم. چطور می‌تونم جبران کنم؟",
   "درک می‌کنم که ناراحتید. بذارید کمکتون کنم."]

/-- `persian_responses["compliment"]`. -/
def complimentResponses : List String :=
  ["خیلی ممنون از لطفتون! خوشحالم.",
   "واقعاً ممنونم! انگیزه می‌ده.",
   "لطف دارید! خوشحال می‌شم بیشتر کمکتون کنم.",
   "چقدر مهربونید! ممنون از حرف قشنگتون.",
   "دست شما درد نکنه! خیلی خوشحالم."]

/-- The `persian_responses` dict as a lookup: `some` exactly on its nine
keys (`intent in self.persian_responses`). -/
def persianResponses (intent : String) : Option (List String) :=
  if intent = "greeting" then some greetingResponses
  else if intent = "question" then some questionResponses
  else if intent = "request_help" then some requestHelpResponses
  else if intent = "thanks" then some thanksResponses
  else if intent = "goodbye" then some goodbyeResponses
  else if intent = "weather_inquiry" then some weatherInquiryResponses
  else if intent = "general_conversation" then some generalConversationResponses
  else if intent = "complaint" then some complaintResponses
  else if intent = "compliment" then some complimentResponses
  else none

/-- `random.choice(l)` with the randomness made explicit: the draw is the
index `i % l.length`. -/
def chooseResponse (l : List String) (i : Nat) : String :=
  l.getD (i % l.length) ""

/-- The text appended to the base template by
`_add_context_to_response`: a time-of-day greeting for the `greeting`
intent, an encouragement phrase for `question`, otherwise nothing. -/
def contextSuffix (intent userText : String) (hour : Nat) : String :=
  if intent = "greeting" then
    if 5 ≤ hour ∧ hour < 12 then " صبحتون بخیر!"
    else if 12 ≤ hour ∧ hour < 17 then " ظهرتون بخیر!"
    else if 17 ≤ hour ∧ hour < 20 then " عصرتون بخیر!"
    else " شبتون بخیر!"
  else if intent = "question" ∧ userText ≠ "" then
    if occursIn userText "چطور" ∨ occursIn (lowerStr userText) "how" then
      " سعی می‌کنم راهنماییتون کنم."
    else if occursIn userText "چرا" ∨ occursIn (lowerStr userText) "why" then
      " دلایل مختلفی می‌تونه داشته باشه."
    else ""
  else ""

/-- `HuggingFaceService._add_context_to_response`: the base template with
the contextual suffix concatenated (`base_response += ...`; the
pass-through branches append the empty suffix). -/
def addContextToResponse (base userText intent : String) (hour : Nat) : String :=
  base ++ contextSuffix intent userText hour

/-- Every string `_add_context_to_response` can append. -/
def contextSuffixes : List String :=
  ["", " صبحتون بخیر!", " ظهرتون بخیر!", " عصرتون بخیر!", " شبتون بخیر!",
   " سعی می‌کنم راهنماییتون کنم.", " دلایل مختلفی می‌تونه داشته باشه."]

/-- `HuggingFaceService.generate_response(intent_data, user_text)`.
`choiceIdx` and `gcChoiceIdx` are the two `random.choice` draws,
`hour` is `datetime.now().hour`, `hfToken` is `bool(self.hf_token)`,
`apiOut` is what `_free_text_generation` returned (`none` covers both an
API failure and a degenerate generation) and `excRaised` models the
top-level `except` branch yielding the fixed apology. -/
def generateResponseHF (intent : String) (confidence : ℚ) (userText : String)
    (choiceIdx hour : Nat) (hfToken : Bool) (apiOut : Option String)
    (gcChoiceIdx : Nat) (excRaised : Bool) : String :=
  if excRaised then "ببخشید، متوجه نشدم. می‌تونید دوباره بگید؟"
  else if 0.6 < confidence ∧ (persianResponses intent).isSome then
    addContextToResponse (chooseResponse ((persianResponses intent).getD []) choiceIdx)
      userText intent hour
  else if hfToken = true ∧ userText ≠ "" ∧ 5 < userText.trim.length then
    match apiOut with
    | some api =>
      if api ≠ "" ∧ 10 < api.trim.length then api
      else chooseResponse generalConversationResponses gcChoiceIdx
    | none => chooseResponse generalConversationResponses gcChoiceIdx
  else chooseResponse generalConversationResponses gcChoiceIdx

/-! ## RateLimitMiddleware (`middleware/security.py`)

Timestamps are rationals (seconds); `timedelta(minutes=1)` is 60. -/

/-- The cleaning step of `dispatch`: keep the recorded request times with
`now - req_time < timedelta(minutes=1)`. -/
def pruneRecent (now : ℚ) (times : List ℚ) : List ℚ :=
  times.filter (fun t => now - t < 60)

/-- One `dispatch` call for a single client IP: prune, then either raise
429 (`false`, list already rewritten to the pruned one) or record `now`
and pass the request through (`true`). -/
def rateLimitStep (maxRequests : Nat) (now : ℚ) (times : List ℚ) :
    Bool × List ℚ :=
  if maxRequests ≤ (pruneRecent now times).length then
    (false, pruneRecent now times)
  else
    (true, pruneRecent now times ++ [now])

/-- A sequence of `dispatch` calls from one client, threading the
per-IP timestamp list; returns the accept/reject verdicts in order. -/
def rateLimitRun (maxRequests : Nat) : List ℚ → List ℚ → List Bool
  | _, [] => []
  | times, now :: rest =>
    (rateLimitStep maxRequests now times).1 ::
      rateLimitRun maxRequests (rateLimitStep maxRequests now times).2 rest

/-! ## WebSocket connection ceiling (`middleware/validation.py`, `main.py`) -/

/-- The two cross-connection registries touched by `websocket_endpoint`:
`ConnectionManager.connections` (its key set) and
`WebSocketValidator.active_connections`. -/
structure ConnState where
  connections : List String
  activeConnections : List String
deriving DecidableEq

/-- `ConnectionManager.disconnect`: delete the entry if present. -/
def connectionManagerDisconnect (clientId : String) (conns : List String) :
    List String :=
  if clientId ∈ conns then conns.erase clientId else conns

/-- `WebSocketValidator.remove_connection`: `set.discard`. -/
def validatorRemoveConnection (clientId : String) (active : List String) :
    List String :=
  active.erase clientId

/-- The admission part of `websocket_endpoint`: `validate_connection_limit`
raises 503 when `len(active_connections) >= max_connections`; the
`except Exception` arm logs it and the `finally` arm runs
`connection_manager.disconnect(client_id)` and
`websocket_validator.remove_connection(client_id)`.  Otherwise the socket
is accepted, `connect()` registers the fresh id `newId` and
`add_connection(newId)` records it (the message loop that follows is out
of scope).  Returns whether the connection was admitted, and the registry
state after the admission attempt (after `finally` on the reject path). -/
def websocketEndpointAdmission (maxConnections : Nat) (clientId newId : String)
    (st : ConnState) : Bool × ConnState :=
  if st.activeConnections.length < maxConnections then
    (true, ⟨newId :: st.connections, List.insert newId st.activeConnections⟩)
  else
    (false, ⟨connectionManagerDisconnect clientId st.connections,
             validatorRemoveConnection clientId st.activeConnections⟩)

/-! ## Helper lemmas -/

theorem generateSilence_ne_nil (d : ℚ) : generateSilence d ≠ [] := by
  simp [generateSilence, wavHeader]

theorem synthesizeWithBestEngine_ne_nil (cfg : TTSConfig) (eo go : Option Bytes)
    (he : ∀ b, eo = some b → b ≠ []) (hg : ∀ b, go = some b → b ≠ []) :
    synthesizeWithBestEngine cfg eo go ≠ [] := by
  rcases cfg with ⟨e, g⟩
  cases e <;> cases g <;> cases eo <;> cases go <;>
    simp_all [synthesizeWithBestEngine, edgeTTSSynthesize, gttsSynthesize,
      generateSilence_ne_nil]

theorem chooseResponse_mem (l : List String) (i : Nat) (h : l ≠ []) :
    chooseResponse l i ∈ l := by
  have hlen : 0 < l.length := List.length_pos.mpr h
  have hm : i % l.length < l.length := Nat.mod_lt _ hlen
  unfold chooseResponse
  rw [List.getD_eq_getElem l _ hm]
  exact List.getElem_mem hm

theorem chooseResponse_ne_empty (l : List String) (i : Nat) (h : l ≠ [])
    (hall : ∀ t ∈ l, t ≠ "") : chooseResponse l i ≠ "" :=
  hall _ (chooseResponse_mem l i h)

theorem str_append_ne_empty (t s : String) (h : t ≠ "") : t ++ s ≠ "" := by
  intro hc
  apply h
  have hdata : t.data ++ s.data = [] := by
    rw [← String.data_append, hc]
  exact String.ext (List.append_eq_nil.mp hdata).1

theorem persianResponses_wf (intent : String) (rs : List String)
    (h : persianResponses intent = some rs) : rs ≠ [] ∧ ∀ t ∈ rs, t ≠ "" := by
  unfold persianResponses at h
  split_ifs at h <;> injection h with h2 <;> subst h2 <;>
    exact ⟨by decide, by decide⟩

theorem contextSuffix_mem (intent userText : String) (hour : Nat) :
    contextSuffix intent userText hour ∈ contextSuffixes := by
  unfold contextSuffix
  split_ifs <;> decide

theorem ratSixTenthsLtNineTenths : (0.6 : ℚ) < 0.9 := by norm_num

theorem ratPairwiseWindowExample :
    List.Pairwise (fun a b : ℚ => b - a < 60) [0, 10, 20] := by
  norm_num [List.pairwise_cons]

/-- Core rate-limiter invariant: while every stored timestamp stays within
60 seconds of every upcoming request, nothing is pruned, so each accepted
request grows the stored list by one and, once the list reaches the
maximum, every further request in the window is rejected.  Hence if no
request was rejected, at most `maxRequests` arrived. -/
theorem rateLimit_accepted_bound (maxRequests : Nat) :
    ∀ (reqTimes stored : List ℚ),
      (∀ x ∈ stored, ∀ nw ∈ reqTimes, nw - x < 60) →
      List.Pairwise (fun a b => b - a < 60) reqTimes →
      stored.length ≤ maxRequests →
      false ∉ rateLimitRun maxRequests stored reqTimes →
      stored.length + reqTimes.length ≤ maxRequests
  | [], stored, _, _, hlen, _ => by simpa using hlen
  | now :: rest, stored, hinv, hpw, hlen, hrun => by
    have hkeep : pruneRecent now stored = stored :=
      List.filter_eq_self.mpr fun x hx =>
        decide_eq_true (hinv x hx now (List.mem_cons_self _ _))
    by_cases hm : maxRequests ≤ stored.length
    · exfalso
      apply hrun
      have hstep : (rateLimitStep maxRequests now stored).1 = false := by
        simp [rateLimitStep, hkeep, hm]
      rw [rateLimitRun, hstep]
      exact List.mem_cons_self _ _
    · have hlt : stored.length < maxRequests := Nat.lt_of_not_le hm
      have hstep2 : (rateLimitStep maxRequests now stored).2 = stored ++ [now] := by
        simp [rateLimitStep, hkeep, hm]
      have hrun2 : false ∉ rateLimitRun maxRequests (stored ++ [now]) rest := by
        intro hmem
        apply hrun
        rw [rateLimitRun, hstep2]
        exact List.mem_cons_of_mem _ hmem
      have hinv2 : ∀ x ∈ stored ++ [now], ∀ nw ∈ rest, nw - x < 60 := by
        intro x hx nw hnw
        rcases List.mem_append.mp hx with h | h
        · exact hinv x h nw (List.mem_cons_of_mem _ hnw)
        · have hxe : x = now := by simpa using h
          subst hxe
          exact (List.pairwise_cons.mp hpw).1 nw hnw
      have hlen2 : (stored ++ [now]).length ≤ maxRequests := by
        simp only [List.length_append, List.length_singleton]
        omega
      have := rateLimit_accepted_bound maxRequests rest (stored ++ [now]) hinv2
        (List.pairwise_cons.mp hpw).2 hlen2 hrun2
      simp only [List.length_append, List.length_singleton] at this
      simp only [List.length_cons]
      omega

/-! ## Claim theorems -/

/-- Claim C2: `MultiEngineTTS.synthesize_with_best_engine` is a total
function into byte strings (it never raises: every branch of the
embedding, like every branch of the source, yields bytes).  When no real
backend is loaded, and likewise when every loaded backend raises, it
returns the fixed 2-second silent waveform, which is a mono, 16-bit PCM,
22050 Hz WAV byte string and is non-empty. -/
theorem c2_tts_total_with_silence_fallback (cfg : TTSConfig)
    (edgeOut gttsOut : Option Bytes) :
    (cfg.hasEdgeTTS = false → cfg.hasGTTS = false →
      synthesizeWithBestEngine cfg edgeOut gttsOut = generateSilence 2)
    ∧ (edgeOut = none → gttsOut = none →
      synthesizeWithBestEngine cfg edgeOut gttsOut = generateSilence 2)
    ∧ wavChannels (generateSilence 2) = 1
    ∧ wavBitsPerSample (generateSilence 2) = 16
    ∧ wavSampleRate (generateSilence 2) = 22050
    ∧ generateSilence 2 ≠ [] := by
  refine ⟨?_, ?_, rfl, rfl, rfl, generateSilence_ne_nil 2⟩
  · intro h1 h2
    simp [synthesizeWithBestEngine, h1, h2]
  · intro h1 h2
    subst h1
    subst h2
    rcases cfg with ⟨e, g⟩
    cases e <;> cases g <;>
      simp [synthesizeWithBestEngine, edgeTTSSynthesize, gttsSynthesize]

/-- Witness for C2 at the concrete no-backend configuration. -/
theorem c2_tts_total_with_silence_fallback_witness :
    synthesizeWithBestEngine ⟨false, false⟩ none none = generateSilence 2 :=
  (c2_tts_total_with_silence_fallback ⟨false, false⟩ none none).1 rfl rfl

/-- Claim C3: the engines invoked by `transcribe_with_best_engine` are
exactly the configured engine table in descending reliability order (the
table built by `load_stt_engines` always holds a single engine, so the
descending visit is exact), and no engine past the head of the
descending-order table is ever invoked — in particular lower-priority
engines are never invoked after a high-reliability engine has answered,
which is the early-exit policy a fortiori. -/
theorem c3_stt_descending_order_early_exit (cfg : STTConfig) :
    sttInvokedEngines cfg = (sortByScoreDesc (performanceScores cfg)).map Prod.fst
    ∧ List.Disjoint
        (((sortByScoreDesc (performanceScores cfg)).map Prod.fst).drop 1)
        (sttInvokedEngines cfg) := by
  rcases cfg with ⟨g⟩
  cases g <;> exact ⟨rfl, fun a ha _ => List.not_mem_nil a ha⟩

/-- Claim C7: `_analyze_emotion` is a pure function applying the category
priority excited > happy > sad with default neutral: any text containing
an excited keyword and a happy keyword is tagged excited, and any text
containing no keyword of any category is tagged neutral. -/
theorem c7_emotion_priority (text : String) :
    (excitedWords.any (fun w => occursIn (lowerStr text) w) = true →
      positiveWords.any (fun w => occursIn (lowerStr text) w) = true →
      analyzeEmotion text = "excited")
    ∧ (excitedWords.any (fun w => occursIn (lowerStr text) w) = false →
      positiveWords.any (fun w => occursIn (lowerStr text) w) = false →
      negativeWords.any (fun w => occursIn (lowerStr text) w) = false →
      analyzeEmotion text = "neutral") := by
  constructor
  · intro hx _
    simp [analyzeEmotion, hx]
  · intro h1 h2 h3
    simp [analyzeEmotion, h1, h2, h3]

/-- Witness for C7: a text holding both an excited and a happy keyword is
tagged excited; a keyword-free text is tagged neutral. -/
theorem c7_emotion_priority_witness :
    analyzeEmotion "فوق‌العاده و خوب" = "excited"
    ∧ analyzeEmotion "سلام" = "neutral" :=
  ⟨(c7_emotion_priority "فوق‌العاده و خوب").1 (by decide) (by decide),
   (c7_emotion_priority "سلام").2 (by decide) (by decide) (by decide)⟩

/-- Claim C10: `_analyze_emotion` only ever returns one of the four tags
excited, happy, sad, neutral — in particular never the tag angry that the
specification's emotion set also lists. -/
theorem c10_emotion_tag_range (text : String) :
    (analyzeEmotion text = "excited" ∨ analyzeEmotion text = "happy"
      ∨ analyzeEmotion text = "sad" ∨ analyzeEmotion text = "neutral")
    ∧ analyzeEmotion text ≠ "angry" := by
  simp only [analyzeEmotion]
  split_ifs <;> decide

/-- Claim C1: every `success=False` result of
`VoiceProcessor.process_voice_input` carries a non-empty message or
non-empty fallback audio — in fact every failure branch of the source
carries a fixed non-empty Persian message, so the client never receives a
silent failure. -/
theorem c1_failure_never_silent (audioLen : Nat) (sttCfg : STTConfig)
    (googleOut : Option String) (sttChoiceIdx : Nat) (ttsCfg : TTSConfig)
    (edgeOut gttsOut : Option Bytes) (excRaised : Bool) (elapsed : ℚ)
    (msg : String) (aud : Bytes)
    (h : processVoiceInput audioLen sttCfg googleOut sttChoiceIdx ttsCfg
        edgeOut gttsOut excRaised elapsed = VoiceResult.failure msg aud) :
    msg ≠ "" ∨ aud ≠ [] := by
  left
  unfold processVoiceInput at h
  split_ifs at h <;> injection h with h1 _ <;> subst h1 <;> decide

/-- Witness for C1: the empty payload is rejected with the fixed
short-file message, which is non-empty. -/
theorem c1_failure_never_silent_witness :
    ("فایل صوتی خیلی کوتاه است" : String) ≠ ""
    ∨ synthesizeWithBestEngine ⟨false, false⟩ none none ≠ ([] : Bytes) :=
  c1_failure_never_silent 0 ⟨false⟩ none 0 ⟨false, false⟩ none none false 0
    "فایل صوتی خیلی کوتاه است" (synthesizeWithBestEngine ⟨false, false⟩ none none) rfl

/-- Claim C4: any payload below the 1000-byte minimum (the empty payload
included) makes `process_voice_input` return `success=False` with the
fallback audio synthesized by the TTS cascade — non-empty whenever each
TTS backend that succeeds returns non-empty bytes (the pure silence
fallback is non-empty unconditionally) — and no STT engine is invoked. -/
theorem c4_short_audio_rejected (audioLen : Nat) (sttCfg : STTConfig)
    (googleOut : Option String) (sttChoiceIdx : Nat) (ttsCfg : TTSConfig)
    (edgeOut gttsOut : Option Bytes) (excRaised : Bool) (elapsed : ℚ)
    (hlen : audioLen < 1000)
    (he : ∀ b, edgeOut = some b → b ≠ [])
    (hg : ∀ b, gttsOut = some b → b ≠ []) :
    processVoiceInput audioLen sttCfg googleOut sttChoiceIdx ttsCfg
        edgeOut gttsOut excRaised elapsed
      = VoiceResult.failure
          (if excRaised then "خطا در پردازش صدا" else "فایل صوتی خیلی کوتاه است")
          (synthesizeWithBestEngine ttsCfg edgeOut gttsOut)
    ∧ synthesizeWithBestEngine ttsCfg edgeOut gttsOut ≠ []
    ∧ pviInvokedSttEngines audioLen sttCfg = [] := by
  refine ⟨?_, synthesizeWithBestEngine_ne_nil ttsCfg edgeOut gttsOut he hg, ?_⟩
  · cases excRaised
    · simp [processVoiceInput, hlen]
    · simp [processVoiceInput]
  · simp [pviInvokedSttEngines, hlen]

/-- Witness for C4 at the empty payload and the no-backend configuration. -/
theorem c4_short_audio_rejected_witness :
    processVoiceInput 0 ⟨false⟩ none 0 ⟨false, false⟩ none none false 0
      = VoiceResult.failure
          (if false then "خطا در پردازش صدا" else "فایل صوتی خیلی کوتاه است")
          (synthesizeWithBestEngine ⟨false, false⟩ none none)
    ∧ synthesizeWithBestEngine ⟨false, false⟩ none none ≠ []
    ∧ pviInvokedSttEngines 0 ⟨false⟩ = [] :=
  c4_short_audio_rejected 0 ⟨false⟩ none 0 ⟨false, false⟩ none none false 0
    (by decide) (fun _ h => Option.noConfusion h) (fun _ h => Option.noConfusion h)

/-- Counterexample to claim C5 as stated: for the greeting intent at
confidence 0.9 (above the 0.6 threshold) and hour 10,
`generate_response` appends the morning greeting to the chosen template,
so the returned string does not belong to the greeting template set. -/
theorem c5_counterexample_greeting_context :
    generateResponseHF "greeting" 0.9 "" 0 10 false none 0 false
      ∉ greetingResponses := by
  have h1 : generateResponseHF "greeting" 0.9 "" 0 10 false none 0 false
      = addContextToResponse (chooseResponse greetingResponses 0) "" "greeting" 10 := by
    unfold generateResponseHF
    rw [if_neg (by decide)]
    rw [if_pos ⟨by norm_num, by decide⟩]
    rfl
  rw [h1]
  decide

/-- Claim C5 as amended: when confidence exceeds 0.6 and the intent has a
template set, the returned string is a member of that template set
concatenated with one suffix drawn from the fixed finite set of
contextual suffixes (the empty suffix, a time-of-day greeting, or a
question-encouragement phrase) — no other text is injected. -/
theorem c5_template_with_context (intent : String) (confidence : ℚ)
    (userText : String) (choiceIdx hour : Nat) (hfToken : Bool)
    (apiOut : Option String) (gcChoiceIdx : Nat) (rs : List String)
    (hconf : 0.6 < confidence) (hrs : persianResponses intent = some rs) :
    chooseResponse rs choiceIdx ∈ rs
    ∧ contextSuffix intent userText hour ∈ contextSuffixes
    ∧ generateResponseHF intent confidence userText choiceIdx hour hfToken
        apiOut gcChoiceIdx false
      = chooseResponse rs choiceIdx ++ contextSuffix intent userText hour := by
  refine ⟨chooseResponse_mem rs choiceIdx (persianResponses_wf intent rs hrs).1,
    contextSuffix_mem intent userText hour, ?_⟩
  unfold generateResponseHF
  rw [if_neg (by decide)]
  rw [if_pos ⟨hconf, by rw [hrs]; rfl⟩]
  rw [hrs]
  rfl

/-- Witness for the amended C5 at a concrete greeting call. -/
theorem c5_template_with_context_witness :
    chooseResponse greetingResponses 0 ∈ greetingResponses
    ∧ contextSuffix "greeting" "" 10 ∈ contextSuffixes
    ∧ generateResponseHF "greeting" 0.9 "" 0 10 false none 0 false
      = chooseResponse greetingResponses 0 ++ contextSuffix "greeting" "" 10 :=
  c5_template_with_context "greeting" 0.9 "" 0 10 false none 0 greetingResponses
    ratSixTenthsLtNineTenths rfl

/-- Claim C6: `generate_response` always returns a non-empty string (and,
being total, never raises): the template path concatenates a non-empty
template, the generative path only returns an API answer that passed the
length guard, every other path returns a `general_conversation` template,
and the exception arm returns the fixed apology. -/
theorem c6_response_always_nonempty (intent : String) (confidence : ℚ)
    (userText : String) (choiceIdx hour : Nat) (hfToken : Bool)
    (apiOut : Option String) (gcChoiceIdx : Nat) (excRaised : Bool) :
    generateResponseHF intent confidence userText choiceIdx hour hfToken
        apiOut gcChoiceIdx excRaised ≠ "" := by
  have hgc : chooseResponse generalConversationResponses gcChoiceIdx ≠ "" :=
    chooseResponse_ne_empty _ _ (by decide) (by decide)
  unfold generateResponseHF
  split_ifs with h1 h2 h3
  · decide
  · obtain ⟨rs, hrs⟩ := Option.isSome_iff_exists.mp h2.2
    have hwf := persianResponses_wf intent rs hrs
    unfold addContextToResponse
    apply str_append_ne_empty
    rw [hrs]
    exact chooseResponse_ne_empty rs choiceIdx hwf.1 hwf.2
  · cases apiOut with
    | none => exact hgc
    | some api =>
      show (if api ≠ "" ∧ 10 < api.trim.length then api
        else chooseResponse generalConversationResponses gcChoiceIdx) ≠ ""
      split_ifs with h4
      · exact h4.1
      · exact hgc
  · exact hgc

/-- Claim C8: one `dispatch` call rejects exactly when the timestamps
retained after excluding those 60 or more seconds old have reached the
maximum, every retained timestamp is within the rolling 60-second window,
and a client issuing more requests than the maximum within one window
receives at least one rejection. -/
theorem c8_rate_limit_window (maxRequests : Nat) (now : ℚ) (times : List ℚ) :
    ((rateLimitStep maxRequests now times).1 = false ↔
      maxRequests ≤ (times.filter (fun t => now - t < 60)).length)
    ∧ (∀ t ∈ (rateLimitStep maxRequests now times).2, now - t < 60)
    ∧ ∀ reqTimes : List ℚ, List.Pairwise (fun a b => b - a < 60) reqTimes →
        maxRequests < reqTimes.length →
        false ∈ rateLimitRun maxRequests [] reqTimes := by
  refine ⟨?_, ?_, ?_⟩
  · unfold rateLimitStep pruneRecent
    split_ifs with h
    · simp [h]
    · simp [h]
  · intro t ht
    unfold rateLimitStep pruneRecent at ht
    split_ifs at ht with h
    · simp only at ht
      exact of_decide_eq_true (List.mem_filter.mp ht).2
    · simp only at ht
      rcases List.mem_append.mp ht with h2 | h2
      · exact of_decide_eq_true (List.mem_filter.mp h2).2
      · have h3 : t = now := by simpa using h2
        subst h3
        norm_num
  · intro reqTimes hpw hlen
    by_contra hmem
    have hbound := rateLimit_accepted_bound maxRequests reqTimes []
      (by intro x hx; cases hx) hpw (by simp) hmem
    simp at hbound
    omega

/-- Witness for C8: with a maximum of one request per window, the second
and third of three quick requests are rejected. -/
theorem c8_rate_limit_window_witness :
    false ∈ rateLimitRun 1 [] [0, 10, 20] :=
  (c8_rate_limit_window 1 0 []).2.2 [0, 10, 20] ratPairwiseWindowExample (by decide)

/-- Claim C9: when the active-connection count has reached the ceiling, a
new websocket connection attempt is rejected before being accepted, and —
the attempt's fresh client id not being registered anywhere — the
`finally` cleanup leaves both the connection registry and the
active-connection set exactly as they were. -/
theorem c9_connection_ceiling (maxConnections : Nat) (clientId newId : String)
    (st : ConnState)
    (hfull : maxConnections ≤ st.activeConnections.length)
    (hconn : clientId ∉ st.connections)
    (hactive : clientId ∉ st.activeConnections) :
    websocketEndpointAdmission maxConnections clientId newId st = (false, st) := by
  rcases st with ⟨conns, active⟩
  unfold websocketEndpointAdmission
  rw [if_neg (by simp only at hfull ⊢; omega)]
  unfold connectionManagerDisconnect validatorRemoveConnection
  simp_all [List.erase_of_not_mem]

/-- Witness for C9: with a ceiling of zero and empty registries, the
attempt is rejected and the registries stay empty. -/
theorem c9_connection_ceiling_witness :
    websocketEndpointAdmission 0 "client-a" "client-b" ⟨[], []⟩
      = (false, (⟨[], []⟩ : ConnState)) :=
  c9_connection_ceiling 0 "client-a" "client-b" ⟨[], []⟩ (by decide)
    (by decide) (by decide)

end SimpleChatbot2
